import Mathlib

/-!
Shallow embedding of the gompd MPD client (`mpd/client.go`).

Strings are modelled as sequences of characters; the Go code only ever
manipulates ASCII protocol text, where byte indexing and character indexing
coincide.  The line transport is modelled explicitly: a connection carries the
list of command lines written so far (`sent`), the pipeline ids passed to
`StartResponse` (`started`), the next pipeline id (`nextId`), and the list of
lines still available to be read (`input`).  Reading from an exhausted input
is a transport failure (the `textproto` read error).  Writes are modelled as
reliable; read-side transport failures are the only I/O errors the claims
exercise.  A Go runtime panic (nil dereference, out-of-range slice) is
modelled by an explicit `crash` outcome, so every partial operation of the
source becomes total and the reachability of each panic is provable.
-/

namespace Mpd

/-- First index at which the two-character delimiter `": "` occurs in a
character list; `strings.Index(line, ": ")` from the source. -/
def findColonSpace : List Char → Option Nat
  | c1 :: c2 :: rest =>
    if c1 = ':' ∧ c2 = ' ' then some 0
    else (findColonSpace (c2 :: rest)).map (fun n => n + 1)
  | _ => none

/-- `strings.Index(line, ": ")` on strings (`none` for Go result `-1`). -/
def strIndexCS (s : String) : Option Nat :=
  findColonSpace s.data

/-- Go string slicing `s[0:n]` (the prefix of length `n`). -/
def strTake (s : String) (n : Nat) : String :=
  ⟨s.data.take n⟩

/-- Go string slicing `s[n:]` (dropping the first `n` characters). -/
def strDrop (s : String) (n : Nat) : String :=
  ⟨s.data.drop n⟩

/-- Length of a string in characters (`len(s)` on the ASCII protocol text). -/
def strLen (s : String) : Nat :=
  s.data.length

/-- Whether `p` is an initial segment of `l`. -/
def listIsPre : List Char → List Char → Bool
  | [], _ => true
  | _ :: _, [] => false
  | p :: ps, c :: cs => p = c && listIsPre ps cs

/-- `strings.HasPrefix(s, p)` from the source. -/
def strStartsWith (s p : String) : Bool :=
  listIsPre p.data s.data

/-- `type Attrs map[string]string`: a Go string-keyed map, modelled as an
association list whose keys are unique by construction (insertion replaces). -/
abbrev Attrs := List (String × String)

/-- Go map update `attrs[k] = v`: replace the binding of `k` if present,
otherwise append a new binding. -/
def attrsInsert : Attrs → String → String → Attrs
  | [], k, v => [(k, v)]
  | (k0, v0) :: rest, k, v =>
    if k0 = k then (k, v) :: rest else (k0, v0) :: attrsInsert rest k v

/-- Go map lookup `attrs[k]` (`none` when the comma-ok form reports absence). -/
def lookupAttr : Attrs → String → Option String
  | [], _ => none
  | (k0, v0) :: rest, k => if k0 = k then some v0 else lookupAttr rest k

/-- In-place mutation of the final element, `pls[len(pls)-1]` updated by `f`;
the source only reaches this with a non-empty list. -/
def updateLast (f : Attrs → Attrs) (pls : List Attrs) : List Attrs :=
  match pls.getLast? with
  | none => pls
  | some a => pls.dropLast ++ [f a]

/-- The error values the embedded operations can return. -/
inductive Err where
  /-- `textproto.ProtocolError(msg)`. -/
  | protocol : String → Err
  /-- A transport-level read failure (end of stream before a terminator). -/
  | transport : String → Err
  /-- `os.NewError(msg)`. -/
  | newError : String → Err
  /-- The `strconv.Atoi` conversion error on the given input string. -/
  | numError : String → Err
deriving DecidableEq

/-- Result of a decode loop: a value or an error. -/
inductive ReadResult (α : Type) where
  | ok : α → ReadResult α
  | err : Err → ReadResult α
deriving DecidableEq

/-- `(c *Client) readAttrs` loop body: flat decode over the remaining input
lines, returning the result together with the lines left unconsumed. -/
def readAttrsAux : List String → Attrs → ReadResult Attrs × List String
  | [], _ => (.err (.transport "EOF"), [])
  | line :: rest, attrs =>
    if line = "OK" then (.ok attrs, rest)
    else
      match strIndexCS line with
      | none => (.err (.protocol ("can't parse line: " ++ line)), rest)
      | some z =>
        readAttrsAux rest (attrsInsert attrs (strTake line z) (strDrop line (z + 2)))

/-- `(c *Client) readAttrs` from the source: starts from an empty map. -/
def readAttrs (input : List String) : ReadResult Attrs × List String :=
  readAttrsAux input []

/-- The body of one `readPlaylist` loop iteration on a non-terminator line:
a line whose first five characters are `file:` begins a new record; a data
line with no record yet is `unexpected`; a data line without the `": "`
delimiter is unparseable.  Returns either the error that stops the loop or
the updated record sequence. -/
def playlistLineStep (line : String) (pls : List Attrs) :
    ReadResult (List Attrs) ⊕ List Attrs :=
  let pls2 := if strStartsWith line "file:" then pls ++ [[]] else pls
  if pls2 = [] then .inl (.err (.protocol ("unexpected: " ++ line)))
  else
    match strIndexCS line with
    | none => .inl (.err (.protocol ("can't parse line: " ++ line)))
    | some z =>
      .inr (updateLast (fun a => attrsInsert a (strTake line z) (strDrop line (z + 2))) pls2)

/-- `(c *Client) readPlaylist` loop: record-sequence decode over the
remaining input lines. -/
def readPlaylistAux : List String → List Attrs → ReadResult (List Attrs) × List String
  | [], _ => (.err (.transport "EOF"), [])
  | line :: rest, pls =>
    if line = "OK" then (.ok pls, rest)
    else
      match playlistLineStep line pls with
      | .inl er => (er, rest)
      | .inr pls2 => readPlaylistAux rest pls2

/-- `(c *Client) readPlaylist` from the source: starts from an empty sequence. -/
def readPlaylist (input : List String) : ReadResult (List Attrs) × List String :=
  readPlaylistAux input []

/-- `(c *Client) readOKLine` from the source. -/
def readOKLine : List String → ReadResult Unit × List String
  | [] => (.err (.transport "EOF"), [])
  | line :: rest =>
    if line = "OK" then (.ok (), rest)
    else (.err (.protocol ("unexpected response: " ++ line)), rest)

/-- Base-10 digit accumulation for `strconv.Atoi`; fails on a non-digit. -/
def digitsValAux : List Char → Nat → Option Nat
  | [], acc => some acc
  | c :: cs, acc =>
    if '0' ≤ c ∧ c ≤ '9' then digitsValAux cs (acc * 10 + (c.toNat - 48)) else none

/-- Value of a non-empty all-digit character list, else `none`. -/
def digitsVal : List Char → Option Nat
  | [] => none
  | cs => digitsValAux cs 0

/-- `strconv.Atoi` from the source: optional sign then base-10 digits;
anything else is a conversion error.  (Machine-integer range overflow is not
modelled; the claims only exercise syntax.) -/
def goAtoi (s : String) : Option Int :=
  match s.data with
  | '-' :: cs => (digitsVal cs).map (fun n => -(n : Int))
  | '+' :: cs => (digitsVal cs).map (fun n => (n : Int))
  | cs => (digitsVal cs).map (fun n => (n : Int))

/-- Escaping of one character under Go's `%q` formatting (quote and backslash;
control characters never occur in the claims' inputs). -/
def quoteChar (c : Char) : List Char :=
  if c = '"' ∨ c = '\\' then ['\\', c] else [c]

/-- Go `fmt` `%q` formatting of a string argument. -/
def goQuote (s : String) : String :=
  ⟨'"' :: (s.data.map quoteChar).flatten ++ ['"']⟩

/-- The `textproto.Conn` as observed by this client: the write log, the
response-bracketing log, the pipeline id counter and the readable input. -/
structure Conn where
  sent : List String
  started : List Nat
  nextId : Nat
  input : List String
deriving DecidableEq

/-- `type Client struct { text *textproto.Conn }`; `none` models the nil
pointer stored by `Close`. -/
structure Client where
  text : Option Conn
deriving DecidableEq

/-- `c.text.Cmd(...)`: write one formatted command line, allocate its id. -/
def Conn.cmd (conn : Conn) (line : String) : Nat × Conn :=
  (conn.nextId, { conn with sent := conn.sent ++ [line], nextId := conn.nextId + 1 })

/-- `c.text.StartResponse(id)`: record which command's response is consumed. -/
def Conn.startResponse (conn : Conn) (id : Nat) : Conn :=
  { conn with started := conn.started ++ [id] }

/-- The `Cmd` / `StartResponse` bracketing every operation performs: write the
line, then start the response for the id that `Cmd` returned. -/
def Conn.sendAndStart (conn : Conn) (line : String) : Conn :=
  match conn.cmd line with
  | (id, c2) => c2.startResponse id

/-- Result of one Session operation: a value with the resulting client state,
an error with the resulting client state, or a Go runtime panic. -/
inductive Outcome (α : Type) where
  | ok : α → Client → Outcome α
  | error : Err → Client → Outcome α
  | crash : Outcome α
deriving DecidableEq

/-- The value/error part of an outcome (`none` for a crash). -/
def Outcome.value {α : Type} : Outcome α → Option (ReadResult α)
  | .ok a _ => some (.ok a)
  | .error er _ => some (.err er)
  | .crash => none

/-- Whether the outcome is an error return. -/
def Outcome.isErr {α : Type} : Outcome α → Bool
  | .error _ _ => true
  | _ => false

/-- The write log of the resulting connection (`none` if the operation
crashed or the client holds no connection). -/
def Outcome.sentLog {α : Type} : Outcome α → Option (List String)
  | .ok _ ⟨some conn⟩ => some conn.sent
  | .error _ ⟨some conn⟩ => some conn.sent
  | _ => none

/-- The response-bracketing log of the resulting connection. -/
def Outcome.startedLog {α : Type} : Outcome α → Option (List Nat)
  | .ok _ ⟨some conn⟩ => some conn.started
  | .error _ ⟨some conn⟩ => some conn.started
  | _ => none

/-- `Dial`'s result: a connected client, a returned error, or a panic. -/
inductive DialRes where
  | ok : Client → DialRes
  | fail : Err → DialRes
  | crash : DialRes
deriving DecidableEq

/-- `Dial` from the source, given the lines the server will send: read the
greeting line, slice its first six characters (a panic when the line is
shorter), and compare against `"OK MPD"`. -/
def dial : List String → DialRes
  | [] => .fail (.transport "EOF")
  | line :: rest =>
    if strLen line < 6 then .crash
    else if strTake line 6 ≠ "OK MPD" then .fail (.protocol "no greeting")
    else .ok ⟨some { sent := [], started := [], nextId := 0, input := rest }⟩

/-- `(c *Client) Close` from the source: best-effort `close` write, release
the transport, store nil; idempotent.  The discarded transport is dropped
from the model together with its logs. -/
def close (_c : Client) : Client :=
  { text := none }

/-- Wrap a flat decode of the connection's input into an operation outcome. -/
def attrsResult (conn : Conn) : Outcome Attrs :=
  match readAttrs conn.input with
  | (.ok a, rest) => .ok a ⟨some { conn with input := rest }⟩
  | (.err er, rest) => .error er ⟨some { conn with input := rest }⟩

/-- Wrap a record-sequence decode of the connection's input into an outcome. -/
def playlistResult (conn : Conn) : Outcome (List Attrs) :=
  match readPlaylist conn.input with
  | (.ok pls, rest) => .ok pls ⟨some { conn with input := rest }⟩
  | (.err er, rest) => .error er ⟨some { conn with input := rest }⟩

/-- `(c *Client) Status` from the source. -/
def status (c : Client) : Outcome Attrs :=
  match c.text with
  | none => .crash
  | some conn => attrsResult (conn.sendAndStart "status")

/-- `(c *Client) CurrentSong` from the source. -/
def currentSong (c : Client) : Outcome Attrs :=
  match c.text with
  | none => .crash
  | some conn => attrsResult (conn.sendAndStart "currentsong")

/-- Wrap `readOKLine` on the connection's input into an outcome. -/
def okLineResult (conn : Conn) : Outcome Unit :=
  match readOKLine conn.input with
  | (.ok _, rest) => .ok () ⟨some { conn with input := rest }⟩
  | (.err er, rest) => .error er ⟨some { conn with input := rest }⟩

/-- `(c *Client) okCmd` from the source, applied to one formatted line. -/
def okCmd (c : Client) (line : String) : Outcome Unit :=
  match c.text with
  | none => .crash
  | some conn => okLineResult (conn.sendAndStart line)

/-- `(c *Client) Ping` from the source. -/
def ping (c : Client) : Outcome Unit :=
  okCmd c "ping"

/-- The Go slice expression `l[lo:hi]` on a freshly decoded listing: in range
it yields the elements at positions `[lo, hi)`, otherwise it panics.  (Go
tolerates `hi` up to the capacity of the slice; the capacity left by `append`
is unspecified, so any `hi` beyond the length is modelled as out of range.) -/
def goSlice (l : List Attrs) (lo hi : Int) (k : Client) : Outcome (List Attrs) :=
  if 0 ≤ lo ∧ lo ≤ hi ∧ hi ≤ (l.length : Int) then
    .ok ((l.take hi.toNat).drop lo.toNat) k
  else .crash

/-- The tail of `PlaylistInfo` after a full listing, as a function of the
decode result: return unsliced when either bound is negative, otherwise take
`pls[start:end]`. -/
def playlistSliceFinish (s e : Int) (conn : Conn) :
    ReadResult (List Attrs) × List String → Outcome (List Attrs)
  | (.err er, rest) => .error er ⟨some { conn with input := rest }⟩
  | (.ok pls, rest) =>
    if s < 0 ∨ e < 0 then .ok pls ⟨some { conn with input := rest }⟩
    else goSlice pls s e ⟨some { conn with input := rest }⟩

/-- The tail of `PlaylistInfo` after a full listing. -/
def playlistSliceResult (s e : Int) (conn : Conn) : Outcome (List Attrs) :=
  playlistSliceFinish s e conn (readPlaylist conn.input)

/-- `(c *Client) PlaylistInfo(start, end)` from the source. -/
def playlistInfo (c : Client) (s e : Int) : Outcome (List Attrs) :=
  if s < 0 ∧ 0 ≤ e then .error (.newError "negative start index") c
  else if 0 ≤ s ∧ e < 0 then
    match c.text with
    | none => .crash
    | some conn => playlistResult (conn.sendAndStart ("playlistinfo " ++ toString s))
  else
    match c.text with
    | none => .crash
    | some conn => playlistSliceResult s e (conn.sendAndStart "playlistinfo")

/-- The last step of `AddId`: `return strconv.Atoi(tok)`, as a function of
the conversion result. -/
def addIdConv (conn : Conn) (rest : List String) (tok : String) :
    Option Int → Outcome Int
  | some n => .ok n ⟨some { conn with input := rest }⟩
  | none => .error (.numError tok) ⟨some { conn with input := rest }⟩

/-- The `Id` extraction of `AddId`, as a function of the map lookup result:
a missing key is the `addid did not return Id` protocol error, otherwise the
value is converted with `strconv.Atoi`. -/
def addIdParse (conn : Conn) (rest : List String) : Option String → Outcome Int
  | none => .error (.protocol "addid did not return Id") ⟨some { conn with input := rest }⟩
  | some tok => addIdConv conn rest tok (goAtoi tok)

/-- The tail of `AddId` after the response decode, as a function of the
decode result: look up `Id` and convert it. -/
def addIdFinish (conn : Conn) : ReadResult Attrs × List String → Outcome Int
  | (.err er, rest) => .error er ⟨some { conn with input := rest }⟩
  | (.ok attrs, rest) => addIdParse conn rest (lookupAttr attrs "Id")

/-- The tail of `AddId` after the response decode. -/
def addIdRead (conn : Conn) : Outcome Int :=
  addIdFinish conn (readAttrs conn.input)

/-- `(c *Client) AddId(uri, pos)` from the source: the positional command is
written only when `pos >= 0`, the non-positional command is always written
afterwards, and the response consumed is the one bracketed for the
non-positional command's id. -/
def addId (c : Client) (uri : String) (pos : Int) : Outcome Int :=
  match c.text with
  | none => .crash
  | some conn0 =>
    addIdRead
      ((if 0 ≤ pos then (conn0.cmd ("addid " ++ goQuote uri ++ " " ++ toString pos)).2
        else conn0).sendAndStart ("addid " ++ goQuote uri))

/-- Whether a read result is a success. -/
def ReadResult.isOk {α : Type} : ReadResult α → Bool
  | .ok _ => true
  | .err _ => false

/-- Whether a read result is a `textproto.ProtocolError`. -/
def ReadResult.isProtoErr {α : Type} : ReadResult α → Bool
  | .err (.protocol _) => true
  | _ => false

/-- A sample connected client whose pending input is a five-record playlist
response. -/
def sampleConn : Conn :=
  ⟨[], [], 0, ["file: a", "file: b", "file: c", "file: d", "file: e", "OK"]⟩

lemma sendAndStart_input (conn : Conn) (line : String) :
    (conn.sendAndStart line).input = conn.input := rfl

lemma sendAndStart_sent (conn : Conn) (line : String) :
    (conn.sendAndStart line).sent = conn.sent ++ [line] := rfl

lemma sendAndStart_started (conn : Conn) (line : String) :
    (conn.sendAndStart line).started = conn.started ++ [conn.nextId] := rfl

lemma updateLast_concat (f : Attrs → Attrs) (l : List Attrs) (a : Attrs) :
    updateLast f (l ++ [a]) = l ++ [f a] := by
  unfold updateLast
  rw [List.getLast?_concat, List.dropLast_concat]

lemma playlistResult_value (conn : Conn) :
    (playlistResult conn).value = some (readPlaylist conn.input).1 := by
  unfold playlistResult
  cases h : readPlaylist conn.input with
  | mk r rest => cases r <;> rfl

lemma playlistResult_sentLog (conn : Conn) :
    (playlistResult conn).sentLog = some conn.sent := by
  unfold playlistResult
  cases h : readPlaylist conn.input with
  | mk r rest => cases r <;> rfl

lemma addId_eq (conn : Conn) (uri : String) (pos : Int) :
    addId ⟨some conn⟩ uri pos =
      addIdRead ((if 0 ≤ pos then (conn.cmd ("addid " ++ goQuote uri ++ " " ++ toString pos)).2
        else conn).sendAndStart ("addid " ++ goQuote uri)) := rfl

lemma addId_arg_input (conn : Conn) (uri : String) (pos : Int) :
    ((if 0 ≤ pos then (conn.cmd ("addid " ++ goQuote uri ++ " " ++ toString pos)).2
      else conn).sendAndStart ("addid " ++ goQuote uri)).input = conn.input := by
  by_cases hp : (0 : Int) ≤ pos
  · rw [if_pos hp]
    rfl
  · rw [if_neg hp]
    rfl

lemma playlistInfo_eq_record (conn : Conn) (s e : Int)
    (hn1 : ¬(s < 0 ∧ 0 ≤ e)) (h : 0 ≤ s ∧ e < 0) :
    playlistInfo ⟨some conn⟩ s e =
      playlistResult (conn.sendAndStart ("playlistinfo " ++ toString s)) := by
  unfold playlistInfo
  rw [if_neg hn1, if_pos h]

lemma playlistInfo_eq_slice (conn : Conn) (s e : Int)
    (hn1 : ¬(s < 0 ∧ 0 ≤ e)) (hn2 : ¬(0 ≤ s ∧ e < 0)) :
    playlistInfo ⟨some conn⟩ s e =
      playlistSliceResult s e (conn.sendAndStart "playlistinfo") := by
  unfold playlistInfo
  rw [if_neg hn1, if_neg hn2]

lemma addIdFinish_sentLog (conn : Conn) (x : ReadResult Attrs × List String) :
    (addIdFinish conn x).sentLog = some conn.sent := by
  rcases x with ⟨r, rest⟩
  cases r with
  | err er => rfl
  | ok attrs =>
    simp only [addIdFinish]
    cases h2 : lookupAttr attrs "Id" with
    | none => rfl
    | some tok =>
      simp only [addIdParse]
      cases h3 : goAtoi tok <;> rfl

lemma addIdFinish_startedLog (conn : Conn) (x : ReadResult Attrs × List String) :
    (addIdFinish conn x).startedLog = some conn.started := by
  rcases x with ⟨r, rest⟩
  cases r with
  | err er => rfl
  | ok attrs =>
    simp only [addIdFinish]
    cases h2 : lookupAttr attrs "Id" with
    | none => rfl
    | some tok =>
      simp only [addIdParse]
      cases h3 : goAtoi tok <;> rfl

lemma addIdFinish_value (conn conn2 : Conn) (x : ReadResult Attrs × List String) :
    (addIdFinish conn x).value = (addIdFinish conn2 x).value := by
  rcases x with ⟨r, rest⟩
  cases r with
  | err er => rfl
  | ok attrs =>
    simp only [addIdFinish]
    cases h2 : lookupAttr attrs "Id" with
    | none => rfl
    | some tok =>
      simp only [addIdParse]
      cases h3 : goAtoi tok <;> rfl

/-- C1: the decode loops never recognize an `ACK` terminator.  A response
terminated by `ACK some error` does not yield an error with message
`some error`: flat decode reports the malformed-line error
`can't parse line: ACK some error`, record-sequence decode reports
`unexpected: ACK some error`, and an ACK line that happens to contain the
`": "` delimiter is silently consumed as a data line and decoding succeeds. -/
theorem c1_ack_terminator_not_recognized :
    readAttrs ["ACK some error"] =
      (.err (.protocol "can't parse line: ACK some error"), []) ∧
    readPlaylist ["ACK some error"] =
      (.err (.protocol "unexpected: ACK some error"), []) ∧
    readAttrs ["ACK error: msg", "OK"] = (.ok [("ACK error", "msg")], []) := by
  decide

/-- C8: a response consisting of the single line `OK` decodes without error
to an empty result in both modes: an empty attribute set under flat decode
and an empty record sequence under record-sequence decode. -/
theorem c8_empty_ok_response :
    readAttrs ["OK"] = (.ok [], []) ∧ readPlaylist ["OK"] = (.ok [], []) := by
  decide

/-- C2 (counterexample): after `Close`, `Status` does not fail with a
closed-session error — it dereferences the nil transport handle (a crash),
returning no error value at all. -/
theorem c2_counterexample_status_after_close :
    status (close ⟨some ⟨[], [], 0, []⟩⟩) = Outcome.crash ∧
    (status (close ⟨some ⟨[], [], 0, []⟩⟩)).isErr = false := by
  decide

/-- C2 (amended): after `Close` the transport handle is nil, and every
subsequent operation that issues a command crashes on the nil handle rather
than failing with a closed-session error; no transport I/O is performed. -/
theorem c2_after_close_operations_crash (c : Client) (uri : String) (pos s e : Int) :
    (close c).text = none ∧
    status (close c) = Outcome.crash ∧
    currentSong (close c) = Outcome.crash ∧
    ping (close c) = Outcome.crash ∧
    addId (close c) uri pos = Outcome.crash ∧
    (¬(s < 0 ∧ 0 ≤ e) → playlistInfo (close c) s e = Outcome.crash) := by
  refine ⟨rfl, rfl, rfl, rfl, ?_, ?_⟩
  · unfold addId close
    rfl
  · intro h
    unfold playlistInfo close
    rw [if_neg h]
    split <;> rfl

/-- C2 (witness): the amended statement at a concrete closed session. -/
theorem c2_after_close_witness :
    playlistInfo (close ⟨some ⟨[], [], 0, []⟩⟩) 0 (-1) = Outcome.crash :=
  (c2_after_close_operations_crash ⟨some ⟨[], [], 0, []⟩⟩ "u" 0 0 (-1)).2.2.2.2.2
    (by decide)

/-- C9: for every greeting line shorter than six characters, `Dial`'s
greeting check `line[0:6]` is out of range — the embedding crashes — and
`Dial` does not return the `no greeting` handshake error. -/
theorem c9_short_greeting_crashes (line : String) (rest : List String)
    (h : strLen line < 6) :
    dial (line :: rest) = DialRes.crash ∧
    dial (line :: rest) ≠ DialRes.fail (Err.protocol "no greeting") := by
  simp only [dial]
  rw [if_pos h]
  exact ⟨rfl, by simp⟩

/-- C9 (witness): `Dial` on the empty greeting line. -/
theorem c9_short_greeting_witness : dial [""] = DialRes.crash :=
  (c9_short_greeting_crashes "" [] (by decide)).1

/-- C5 (counterexample): in record-sequence decode, the key/value line
`file:a: b` — whose key `file:a` is not the marker key `file` — arrives
before any marker line, yet decoding does not fail: the code tests the
prefix `file:`, starts a new record, and succeeds. -/
theorem c5_counterexample_data_before_marker :
    readPlaylist ["file:a: b", "OK"] = (.ok [[("file:a", "b")]], []) ∧
    (readPlaylist ["file:a: b", "OK"]).1.isOk = true := by
  decide

/-- C6 (counterexample): the key/value line `file:a: b` following the
record `file: x` has key `file:a`, not the marker key `file`, so under the
claim it would be assigned to the current record; the code instead starts a
new record because the line carries the `file:` prefix. -/
theorem c6_counterexample_prefix_starts_record :
    readPlaylist ["file: x", "file:a: b", "OK"] =
      (.ok [[("file", "x")], [("file:a", "b")]], []) ∧
    (readPlaylist ["file: x", "file:a: b", "OK"]).1 ≠
      .ok [[("file", "x"), ("file:a", "b")]] := by
  decide

/-- C3: `PlaylistInfo(start, end)` has three selection modes and one
rejected input shape: `start < 0 ≤ end` fails validation before any command
is sent (the client is returned untouched); `start ≥ 0 > end` sends the
single-position command and returns the record-sequence decode of the
response; both non-negative sends the full listing and returns the decoded
records sliced to `[start, end)` (when the slice is in range); both negative
sends the full listing and returns it unsliced. -/
theorem c3_playlistInfo_modes (c : Client) (conn : Conn) (s e : Int)
    (pls : List Attrs) (rest : List String) :
    (s < 0 → 0 ≤ e →
      playlistInfo c s e = .error (.newError "negative start index") c) ∧
    (0 ≤ s → e < 0 →
      (playlistInfo ⟨some conn⟩ s e).value = some (readPlaylist conn.input).1 ∧
      (playlistInfo ⟨some conn⟩ s e).sentLog =
        some (conn.sent ++ ["playlistinfo " ++ toString s])) ∧
    (0 ≤ s → 0 ≤ e → s ≤ e → e ≤ (pls.length : Int) →
      readPlaylist conn.input = (.ok pls, rest) →
      playlistInfo ⟨some conn⟩ s e =
        .ok ((pls.take e.toNat).drop s.toNat)
          ⟨some { conn with sent := conn.sent ++ ["playlistinfo"],
                            started := conn.started ++ [conn.nextId],
                            nextId := conn.nextId + 1, input := rest }⟩) ∧
    (s < 0 → e < 0 →
      (playlistInfo ⟨some conn⟩ s e).value = some (readPlaylist conn.input).1 ∧
      (playlistInfo ⟨some conn⟩ s e).sentLog = some (conn.sent ++ ["playlistinfo"])) := by
  refine ⟨?_, ?_, ?_, ?_⟩
  · intro h1 h2
    unfold playlistInfo
    rw [if_pos ⟨h1, h2⟩]
  · intro h1 h2
    rw [playlistInfo_eq_record conn s e (by omega) ⟨h1, h2⟩]
    rw [playlistResult_value, playlistResult_sentLog, sendAndStart_input, sendAndStart_sent]
    exact ⟨rfl, rfl⟩
  · intro h1 h2 h3 h4 hread
    rw [playlistInfo_eq_slice conn s e (by omega) (by omega)]
    unfold playlistSliceResult
    rw [sendAndStart_input, hread]
    simp only [playlistSliceFinish]
    rw [if_neg (by omega : ¬(s < 0 ∨ e < 0))]
    unfold goSlice
    rw [if_pos ⟨h1, h3, h4⟩]
    rfl
  · intro h1 h2
    rw [playlistInfo_eq_slice conn s e (by omega) (by omega)]
    unfold playlistSliceResult
    rw [sendAndStart_input]
    cases hr : readPlaylist conn.input with
    | mk r rest2 =>
      cases r with
      | ok pls2 =>
        simp only [playlistSliceFinish]
        rw [if_pos (by omega : s < 0 ∨ e < 0)]
        exact ⟨rfl, rfl⟩
      | err er => exact ⟨rfl, rfl⟩

/-- C3 (witness): the modes at concrete inputs, on a five-record listing. -/
theorem c3_playlistInfo_witness :
    playlistInfo ⟨some sampleConn⟩ (-1) 3 =
      .error (.newError "negative start index") ⟨some sampleConn⟩ ∧
    (playlistInfo ⟨some sampleConn⟩ 2 (-1)).sentLog = some ["playlistinfo 2"] ∧
    playlistInfo ⟨some sampleConn⟩ 0 2 =
      .ok [[("file", "a")], [("file", "b")]] ⟨some ⟨["playlistinfo"], [0], 1, []⟩⟩ ∧
    (playlistInfo ⟨some sampleConn⟩ (-2) (-1)).value =
      some (.ok [[("file", "a")], [("file", "b")], [("file", "c")],
                 [("file", "d")], [("file", "e")]]) := by
  refine ⟨?_, ?_, ?_, ?_⟩
  · exact ((c3_playlistInfo_modes ⟨some sampleConn⟩ sampleConn (-1) 3 [] []).1
      (by decide) (by decide)).trans (by decide)
  · exact (((c3_playlistInfo_modes ⟨some sampleConn⟩ sampleConn 2 (-1) [] []).2.1
      (by decide) (by decide)).2).trans (by decide)
  · exact ((c3_playlistInfo_modes ⟨some sampleConn⟩ sampleConn 0 2
      [[("file", "a")], [("file", "b")], [("file", "c")], [("file", "d")], [("file", "e")]]
      []).2.2.1 (by decide) (by decide) (by decide) (by decide) (by decide)).trans (by decide)
  · exact (((c3_playlistInfo_modes ⟨some sampleConn⟩ sampleConn (-2) (-1) [] []).2.2.2
      (by decide) (by decide)).1).trans (by decide)

/-- C4: `AddId` writes the positional command only when `pos ≥ 0` but always
writes the non-positional command afterwards; the response it brackets and
reads is the one correlated with the non-positional command's id, so the
returned value is independent of `pos`. -/
theorem c4_addId_always_reissues (conn : Conn) (uri : String) (pos : Int) :
    (0 ≤ pos →
      (addId ⟨some conn⟩ uri pos).sentLog =
        some (conn.sent ++ ["addid " ++ goQuote uri ++ " " ++ toString pos,
                            "addid " ++ goQuote uri]) ∧
      (addId ⟨some conn⟩ uri pos).startedLog = some (conn.started ++ [conn.nextId + 1])) ∧
    (pos < 0 →
      (addId ⟨some conn⟩ uri pos).sentLog = some (conn.sent ++ ["addid " ++ goQuote uri]) ∧
      (addId ⟨some conn⟩ uri pos).startedLog = some (conn.started ++ [conn.nextId])) ∧
    (addId ⟨some conn⟩ uri pos).value = (addId ⟨some conn⟩ uri (-1)).value := by
  refine ⟨?_, ?_, ?_⟩
  · intro hp
    rw [addId_eq, if_pos hp]
    unfold addIdRead
    rw [addIdFinish_sentLog, addIdFinish_startedLog]
    constructor
    · simp [Conn.sendAndStart, Conn.cmd, Conn.startResponse, List.append_assoc]
    · rfl
  · intro hp
    rw [addId_eq, if_neg (by omega : ¬(0 : Int) ≤ pos)]
    unfold addIdRead
    rw [addIdFinish_sentLog, addIdFinish_startedLog]
    exact ⟨rfl, rfl⟩
  · rw [addId_eq conn uri pos, addId_eq conn uri (-1)]
    unfold addIdRead
    rw [addId_arg_input conn uri pos, addId_arg_input conn uri (-1)]
    exact addIdFinish_value _ _ _

/-- C4 (witness): both commands written for `pos = 3`, the second command's
id bracketed, and the value equal to the `pos`-less call's value. -/
theorem c4_addId_witness :
    (addId ⟨some ⟨[], [], 0, ["Id: 7", "OK"]⟩⟩ "u" 3).sentLog =
      some ["addid \"u\" 3", "addid \"u\""] ∧
    (addId ⟨some ⟨[], [], 0, ["Id: 7", "OK"]⟩⟩ "u" 3).startedLog = some [1] ∧
    (addId ⟨some ⟨[], [], 0, ["Id: 7", "OK"]⟩⟩ "u" 3).value =
      (addId ⟨some ⟨[], [], 0, ["Id: 7", "OK"]⟩⟩ "u" (-1)).value := by
  have h := c4_addId_always_reissues ⟨[], [], 0, ["Id: 7", "OK"]⟩ "u" 3
  exact ⟨((h.1 (by decide)).1).trans (by decide),
         ((h.1 (by decide)).2).trans (by decide), h.2.2⟩

/-- C7: after a successful flat decode, `AddId` returns the integer parsed
from the `Id` attribute; a missing `Id` key yields the protocol-shape error
`addid did not return Id`, and a non-integer value yields the `strconv`
conversion error — neither is an ACK-style rejection. -/
theorem c7_addId_id_extraction (conn : Conn) (uri : String) (pos : Int)
    (attrs : Attrs) (rest : List String) (tok : String) (n : Int)
    (hread : readAttrs conn.input = (.ok attrs, rest)) :
    (lookupAttr attrs "Id" = none →
      (addId ⟨some conn⟩ uri pos).value =
        some (.err (.protocol "addid did not return Id"))) ∧
    (lookupAttr attrs "Id" = some tok → goAtoi tok = some n →
      (addId ⟨some conn⟩ uri pos).value = some (.ok n)) ∧
    (lookupAttr attrs "Id" = some tok → goAtoi tok = none →
      (addId ⟨some conn⟩ uri pos).value = some (.err (.numError tok))) := by
  rw [addId_eq]
  unfold addIdRead
  rw [addId_arg_input conn uri pos, hread]
  refine ⟨?_, ?_, ?_⟩
  · intro hl
    simp only [addIdFinish, hl, addIdParse]
    rfl
  · intro hl ha
    simp only [addIdFinish, hl, addIdParse, ha, addIdConv]
    rfl
  · intro hl ha
    simp only [addIdFinish, hl, addIdParse, ha, addIdConv]
    rfl

/-- C7 (witness): the three shapes at concrete responses. -/
theorem c7_addId_witness :
    (addId ⟨some ⟨[], [], 0, ["OK"]⟩⟩ "u" (-1)).value =
      some (.err (.protocol "addid did not return Id")) ∧
    (addId ⟨some ⟨[], [], 0, ["Id: 7", "OK"]⟩⟩ "u" (-1)).value = some (.ok 7) ∧
    (addId ⟨some ⟨[], [], 0, ["Id: abc", "OK"]⟩⟩ "u" (-1)).value =
      some (.err (.numError "abc")) := by
  refine ⟨?_, ?_, ?_⟩
  · exact (c7_addId_id_extraction ⟨[], [], 0, ["OK"]⟩ "u" (-1) [] [] "" 0
      (by decide)).1 (by decide)
  · exact (c7_addId_id_extraction ⟨[], [], 0, ["Id: 7", "OK"]⟩ "u" (-1)
      [("Id", "7")] [] "7" 7 (by decide)).2.1 (by decide) (by decide)
  · exact (c7_addId_id_extraction ⟨[], [], 0, ["Id: abc", "OK"]⟩ "u" (-1)
      [("Id", "abc")] [] "abc" 0 (by decide)).2.2 (by decide) (by decide)

/-- C5 (amended): in either decode mode, a data line lacking the `": "`
delimiter causes a malformed-response protocol error and halts further
decoding (the remaining lines are left unconsumed); in record-sequence
decode, a key/value data line arriving before any `file:`-prefixed line
(the code tests the prefix, not the parsed key) causes the `unexpected`
malformed-response error. -/
theorem c5_malformed_response_errors (line l2 l3 : String)
    (rest r2 r3 : List String) (a : Attrs) (pls : List Attrs) (z : Nat) :
    (line ≠ "OK" → strIndexCS line = none →
      readAttrsAux (line :: rest) a =
        (.err (.protocol ("can't parse line: " ++ line)), rest)) ∧
    (l2 ≠ "OK" → strIndexCS l2 = none →
      (readPlaylistAux (l2 :: r2) pls).1.isProtoErr = true ∧
      (readPlaylistAux (l2 :: r2) pls).2 = r2) ∧
    (l3 ≠ "OK" → strStartsWith l3 "file:" = false → strIndexCS l3 = some z →
      readPlaylistAux (l3 :: r3) [] =
        (.err (.protocol ("unexpected: " ++ l3)), r3)) := by
  refine ⟨?_, ?_, ?_⟩
  · intro h1 h2
    simp only [readAttrsAux, if_neg h1, h2]
  · intro h1 h2
    simp only [readPlaylistAux, playlistLineStep, if_neg h1, h2]
    by_cases hp : (if strStartsWith l2 "file:" then pls ++ [[]] else pls) = []
    · rw [if_pos hp]
      exact ⟨rfl, rfl⟩
    · rw [if_neg hp]
      exact ⟨rfl, rfl⟩
  · intro h1 h2 h3
    simp only [readPlaylistAux, playlistLineStep, if_neg h1, h2, h3]
    rfl

/-- C5 (witness): the malformed-line and data-before-marker errors at
concrete responses. -/
theorem c5_malformed_witness :
    readAttrsAux ["garbage", "a: 1", "OK"] [] =
      (.err (.protocol "can't parse line: garbage"), ["a: 1", "OK"]) ∧
    (readPlaylistAux ["garbage"] [[("file", "x")]]).1.isProtoErr = true ∧
    readPlaylistAux ["title: x", "OK"] [] =
      (.err (.protocol "unexpected: title: x"), ["OK"]) := by
  refine ⟨?_, ?_, ?_⟩
  · exact (c5_malformed_response_errors "garbage" "" "" ["a: 1", "OK"] [] [] [] [] 0).1
      (by decide) (by decide)
  · exact ((c5_malformed_response_errors "" "garbage" "" [] [] [] [] [[("file", "x")]] 0).2.1
      (by decide) (by decide)).1
  · exact (c5_malformed_response_errors "" "" "title: x" [] [] ["OK"] [] [] 5).2.2
      (by decide) (by decide) (by decide)

/-- C6 (amended): record-sequence decode starts a new Attribute Set whenever
a line carries the `file:` prefix (in particular whenever its key is the
marker key `file`), and assigns every other key/value line to the current
(last) record; the example `file: x`, `title: Song A`, `file: y`,
`title: Song B`, `OK` decodes to exactly the two ordered records. -/
theorem c6_record_sequence_decode (line l2 : String) (rest r2 : List String)
    (pls : List Attrs) (z z2 : Nat) :
    (strStartsWith line "file:" = true → strIndexCS line = some z →
      readPlaylistAux (line :: rest) pls =
        readPlaylistAux rest (pls ++ [[(strTake line z, strDrop line (z + 2))]])) ∧
    (l2 ≠ "OK" → strStartsWith l2 "file:" = false → strIndexCS l2 = some z2 →
      pls ≠ [] →
      readPlaylistAux (l2 :: r2) pls =
        readPlaylistAux r2
          (updateLast (fun a => attrsInsert a (strTake l2 z2) (strDrop l2 (z2 + 2))) pls)) ∧
    readPlaylist ["file: x", "title: Song A", "file: y", "title: Song B", "OK"] =
      (.ok [[("file", "x"), ("title", "Song A")], [("file", "y"), ("title", "Song B")]],
       []) := by
  refine ⟨?_, ?_, by decide⟩
  · intro hpre hcs
    have hok : line ≠ "OK" := by
      rintro rfl
      exact absurd hpre (by decide)
    simp only [readPlaylistAux, playlistLineStep, if_neg hok, hpre, hcs]
    rw [if_pos True.intro]
    rw [if_neg (by simp : ¬(pls ++ [[]] = []))]
    rw [updateLast_concat]
    rfl
  · intro h1 h2 h3 h4
    simp only [readPlaylistAux, playlistLineStep, if_neg h1, h2, h3]
    rw [if_neg (by decide : ¬false = true)]
    rw [if_neg h4]

/-- C6 (witness): a marker line starts a fresh record; a non-marker line is
assigned to the last record. -/
theorem c6_record_witness :
    readPlaylistAux ["file: q", "OK"] [] = readPlaylistAux ["OK"] [[("file", "q")]] ∧
    readPlaylistAux ["title: s", "OK"] [[("file", "x")]] =
      readPlaylistAux ["OK"] [[("file", "x"), ("title", "s")]] := by
  refine ⟨?_, ?_⟩
  · exact ((c6_record_sequence_decode "file: q" "" ["OK"] [] [] 4 0).1
      (by decide) (by decide)).trans (by decide)
  · exact ((c6_record_sequence_decode "" "title: s" [] ["OK"] [[("file", "x")]] 0 5).2.1
      (by decide) (by decide) (by decide) (by decide)).trans (by decide)

/-- C10: with both bounds non-negative, the client-side slice
`pls[start:end]` is taken without bounds checking: whenever `end` exceeds
the decoded record count or `start > end`, the operation crashes (out-of-
range slice) instead of returning an error. -/
theorem c10_out_of_range_slice_crashes (conn : Conn) (s e : Int)
    (pls : List Attrs) (rest : List String)
    (hs : 0 ≤ s) (he : 0 ≤ e)
    (hread : readPlaylist conn.input = (.ok pls, rest))
    (hbad : (pls.length : Int) < e ∨ e < s) :
    playlistInfo ⟨some conn⟩ s e = Outcome.crash ∧
    (playlistInfo ⟨some conn⟩ s e).value = none := by
  have key : playlistInfo ⟨some conn⟩ s e = Outcome.crash := by
    rw [playlistInfo_eq_slice conn s e (by omega) (by omega)]
    unfold playlistSliceResult
    rw [sendAndStart_input, hread]
    simp only [playlistSliceFinish]
    rw [if_neg (by omega : ¬(s < 0 ∨ e < 0))]
    unfold goSlice
    rw [if_neg (by omega : ¬(0 ≤ s ∧ s ≤ e ∧ e ≤ (pls.length : Int)))]
  exact ⟨key, by rw [key]; rfl⟩

/-- C10 (witness): slicing `[0:2]` on an empty decoded listing crashes. -/
theorem c10_slice_witness :
    playlistInfo ⟨some ⟨[], [], 0, ["OK"]⟩⟩ 0 2 = Outcome.crash :=
  (c10_out_of_range_slice_crashes ⟨[], [], 0, ["OK"]⟩ 0 2 [] []
    (by decide) (by decide) (by decide) (by decide)).1

end Mpd
